import Mathlib

/-!
Shallow embedding of `server.py` (a line-delimited JSON-RPC "MCP" server
proxying to a chat-completion HTTP endpoint), together with theorems about
its dispatch loop, tool handlers, input validation and gateway client.

Conventions of the embedding:
* Python values decoded by `json.loads` are modelled by the inductive `Json`.
* Python exceptions that escape an expression are modelled by `Except String`
  (the `String` is the exception message, `str(e)` in the source).
* Machine I/O (stdin lines, HTTP replies) is modelled by explicit input data:
  a list of `Line`s and an oracle `Nat → HttpOutcome`.
* Apostrophes inside string literals are written with the escape `\x27`,
  and brace characters with `\x7b` / `\x7d`.
-/

/-- JSON values as produced by `json.loads`.  Object key lists are the
decoded dicts, whose keys are unique (duplicate keys collapse during
decoding), looked up first-match. -/
inductive Json where
  | null
  | bool (b : Bool)
  | num (n : Int)
  | str (s : String)
  | arr (xs : List Json)
  | obj (fields : List (String × Json))

/-- Python `x == "lit"` for a decoded value `x` and a string literal: true
exactly when `x` is that string.  (`==` on differently-typed Python values
is `False`, never an error.) -/
def jIsStr : Json → String → Bool
  | .str t, s => t = s
  | _, _ => false

/-- First-match lookup in a decoded object's field list (Python `dict` access). -/
def jLookup : List (String × Json) → String → Option Json
  | [], _ => none
  | (k, v) :: fs, key => if k = key then some v else jLookup fs key

/-- Python `type(x).__name__` for decoded JSON values (used in exception messages). -/
def pyTypeName : Json → String
  | .null => "NoneType"
  | .bool _ => "bool"
  | .num _ => "int"
  | .str _ => "str"
  | .arr _ => "list"
  | .obj _ => "dict"

/-- Python `len(x)` on a decoded value: `some` for sized values, `none` when
`len` raises `TypeError`. -/
def pyLen : Json → Option Nat
  | .str s => some s.length
  | .arr xs => some xs.length
  | .obj fs => some fs.length
  | _ => none

/-- The ASCII whitespace characters stripped by Python `str.strip()`. -/
def pyIsSpace (c : Char) : Bool :=
  c = ' ' || c = '\t' || c = '\n' || c = '\r' || c = '\x0b' || c = '\x0c'

/-- Python `str.strip()` on a character list: drop whitespace from both ends. -/
def pyStripL (l : List Char) : List Char :=
  ((l.dropWhile pyIsSpace).reverse.dropWhile pyIsSpace).reverse

/-- Python `str.strip()`. -/
def pyStrip (s : String) : String :=
  String.mk (pyStripL s.data)

/-- Python `str.replace("\n", " ")` on a character list: the pattern is a
single character, so global replacement is pointwise. -/
def replaceNewlinesL : List Char → List Char
  | [] => []
  | c :: cs => (if c = '\n' then ' ' else c) :: replaceNewlinesL cs

mutual

/-- Python `repr()` of a decoded JSON value (inner quote escaping omitted;
only used to build diagnostic message strings). -/
def pyRepr : Json → String
  | .null => "None"
  | .bool true => "True"
  | .bool false => "False"
  | .num n => toString n
  | .str s => "\x27" ++ s ++ "\x27"
  | .arr xs => "[" ++ pyReprList xs ++ "]"
  | .obj fs => "\x7b" ++ pyReprFields fs ++ "\x7d"

/-- Comma-separated `repr`s of list elements. -/
def pyReprList : List Json → String
  | [] => ""
  | [x] => pyRepr x
  | x :: y :: xs => pyRepr x ++ ", " ++ pyReprList (y :: xs)

/-- Comma-separated `repr`s of dict entries. -/
def pyReprFields : List (String × Json) → String
  | [] => ""
  | [(k, v)] => "\x27" ++ k ++ "\x27: " ++ pyRepr v
  | (k, v) :: f :: fs => "\x27" ++ k ++ "\x27: " ++ pyRepr v ++ ", " ++ pyReprFields (f :: fs)

end

/-- Python `str()` of a decoded JSON value (as interpolated by f-strings):
a `str` prints itself, anything else prints as its `repr`. -/
def pyStr : Json → String
  | .str s => s
  | j => pyRepr j

/-! ## Configuration and startup (`server.py` lines 136-176) -/

/-- Constant `MAX_PROMPT_LENGTH = 100000`. -/
def MAX_PROMPT_LENGTH : Nat := 100000

/-- Constant `MAX_CODE_LENGTH = 500000`. -/
def MAX_CODE_LENGTH : Nat := 500000

/-- Constant `__version__ = "1.3.0"`. -/
def server_version : String := "1.3.0"

/-- Startup `init_grok` (lines 161-176): reads `XAI_API_KEY` from the environment
(`none` = variable unset) and returns the resulting
`(GROK_AVAILABLE, GROK_ERROR)` pair.  Python truthiness: an unset variable
(`None`) and an empty string both fail the `if not API_KEY` test. -/
def init_grok (env : Option String) : Bool × String :=
  match env with
  | none => (false, "XAI_API_KEY environment variable is not set")
  | some k =>
    if k = "" then (false, "XAI_API_KEY environment variable is not set")
    else (true, "")

/-- The process-lifetime globals the request handlers read:
`GROK_AVAILABLE`, `GROK_ERROR`, `DEFAULT_MODEL`. -/
structure Ctx where
  grokAvailable : Bool
  grokError : String
  defaultModel : String

/-- The `Ctx` produced by startup (`run_server` calling `init_grok`) for a
given environment value of `XAI_API_KEY` and configured default model. -/
def ctxOfEnv (env : Option String) (model : String) : Ctx :=
  ⟨(init_grok env).1, (init_grok env).2, model⟩

/-! ## Input validation (`server.py` lines 185-190 and 380-382) -/

/-- Validator `truncate_input` (lines 185-190): keep at most `max_length` characters.
Python string slicing `text[:max_length]` takes the first `max_length` code
points, modelled on the character list (the `logger.warning` is
side-effect-only). -/
def truncate_input (text : String) (max_length : Nat) : String :=
  if text.length > max_length then String.mk (text.data.take max_length) else text

/-- The value `focus[:50].replace("\n", " ").strip()` computed on line 382,
before the `or "general"` fallback. -/
def strippedFocus (focus : String) : String :=
  String.mk (pyStripL (replaceNewlinesL (focus.data.take 50)))

/-- Line 382 in full: `focus[:50].replace("\n", " ").strip() or "general"`
(Python `or` yields `"general"` exactly when the left side is the empty
string, which is falsy). -/
def sanitize_focus (focus : String) : String :=
  if strippedFocus focus = "" then "general" else strippedFocus focus

/-! ## Model Gateway client (`call_grok`, `server.py` lines 295-344) -/

/-- The observable outcome of the `requests.post` call in `call_grok`:
either an HTTP reply (status code, raw body text, and the outcome of
`response.json()` — `.error` when JSON decoding raises) or one of the
exception classes the `except` clauses distinguish. -/
inductive HttpOutcome where
  | reply (status : Nat) (text : String) (body : Except String Json)
  | timeout
  | requestExn (msg : String)
  | otherExn (msg : String)

/-- The successfully extracted `result["choices"][0]["message"]["content"]`
value, when the parsed 200-reply body has the expected shape; `none`
otherwise. -/
def choice_content (result : Json) : Option Json :=
  match result with
  | .obj fs =>
    match jLookup fs "choices" with
    | some (.arr (.obj cfs :: _)) =>
      match jLookup cfs "message" with
      | some (.obj mfs) => jLookup mfs "content"
      | _ => none
    | _ => none
  | _ => none

/-- Lines 331-334 inside the `try`:
`if "choices" in result and len(result["choices"]) > 0: return
result["choices"][0]["message"]["content"] else: return f"Unexpected
response format: {result}"`.  `.ok` is a returned string (a non-string
`content` value is returned as-is and stringified by the caller's f-string,
so it is modelled already stringified); `.error` is a raised exception
(`TypeError`/`KeyError` from the dynamic subscripting), caught by the
`except Exception` clause. -/
def extract_content (result : Json) : Except String String :=
  match result with
  | .obj fs =>
    match jLookup fs "choices" with
    | none => .ok ("Unexpected response format: " ++ pyStr result)
    | some choices =>
      match pyLen choices with
      | none => .error ("object of type \x27" ++ pyTypeName choices ++ "\x27 has no len()")
      | some 0 => .ok ("Unexpected response format: " ++ pyStr result)
      | some (_ + 1) =>
        match choices with
        | .arr (c :: _) =>
          match c with
          | .obj cfs =>
            match jLookup cfs "message" with
            | some (.obj mfs) =>
              match jLookup mfs "content" with
              | some v => .ok (pyStr v)
              | none => .error "\x27content\x27"
            | some m => .error ("\x27" ++ pyTypeName m ++ "\x27 object is not subscriptable")
            | none => .error "\x27message\x27"
          | _ => .error ("\x27" ++ pyTypeName c ++ "\x27 object is not subscriptable")
        | .str _ => .error "string indices must be integers"
        | .obj _ => .error "0"
        | _ => .error "unreachable"
  | .arr xs =>
    if xs.any (fun x => jIsStr x "choices") then
      .error "list indices must be integers or slices, not str"
    else .ok ("Unexpected response format: " ++ pyStr result)
  | .str s =>
    if (s.splitOn "choices").length > 1 then .error "string indices must be integers"
    else .ok ("Unexpected response format: " ++ pyStr result)
  | r => .error ("argument of type \x27" ++ pyTypeName r ++ "\x27 is not iterable")

/-- The ordered `messages` array built on lines 298-302: an optional leading
system message, then the user message. -/
def grokMessages (prompt : String) (system_prompt : Option String) : List (String × String) :=
  (match system_prompt with
   | some sp => [("system", sp)]
   | none => []) ++ [("user", prompt)]

/-- Client `call_grok` (lines 295-344).  The request payload (`prompt`,
`system_prompt`) determines what is sent; the reply is supplied by the
`HttpOutcome` oracle, so those two arguments do not influence the value
computed here.  Every code path returns a string: all exceptions are caught
by the three `except` clauses, each formatting `"Error calling Grok: ..."`
(the HTTP-status branch adds the status code). -/
def call_grok (_prompt : String) (_system_prompt : Option String) (outcome : HttpOutcome) : String :=
  match outcome with
  | .reply status text body =>
    if status ≠ 200 then
      "Error calling Grok (HTTP " ++ toString status ++ "): " ++ text
    else
      match body with
      | .error m => "Error calling Grok: " ++ m
      | .ok result =>
        match extract_content result with
        | .ok s => s
        | .error m => "Error calling Grok: " ++ m
  | .timeout => "Error calling Grok: Request timed out"
  | .requestExn m => "Error calling Grok: " ++ m
  | .otherExn m => "Error calling Grok: " ++ m

/-! ## Response codec (JSON-RPC envelopes) -/

/-- A success envelope: `{"jsonrpc": "2.0", "id": ..., "result": ...}`. -/
def mkResult (request_id : Json) (result : Json) : Json :=
  .obj [("jsonrpc", .str "2.0"), ("id", request_id), ("result", result)]

/-- An error envelope:
`{"jsonrpc": "2.0", "id": ..., "error": {"code": ..., "message": ...}}`. -/
def mkError (request_id : Json) (code : Int) (message : String) : Json :=
  .obj [("jsonrpc", .str "2.0"), ("id", request_id),
        ("error", .obj [("code", .num code), ("message", .str message)])]

/-- The `result` payload of a `tools/call` success (lines 421-428):
`{"content": [{"type": "text", "text": ...}]}`. -/
def textContent (text : String) : Json :=
  .obj [("content", .arr [.obj [("type", .str "text"), ("text", .str text)]])]

/-! ## Tool handlers (`handle_tool_call`, `server.py` lines 346-439) -/

/-- Python `arguments.get(key, default)` / `params.get(key, default)`: dict lookup
with default; raises `AttributeError` when the receiver is not a dict. -/
def pyDictGet (j : Json) (key : String) (dflt : Json) : Except String Json :=
  match j with
  | .obj fs => .ok ((jLookup fs key).getD dflt)
  | _ => .error ("\x27" ++ pyTypeName j ++ "\x27 object has no attribute \x27get\x27")

/-- The point where a tool argument flows into `truncate_input`/`.strip()`:
a string passes through; any other decoded value makes Python raise
(`len()`/slicing/`.strip()` `TypeError`/`AttributeError`, grouped here under
one representative message). -/
def pyExpectStr : Json → Except String String
  | .str s => .ok s
  | j => .error ("object of type \x27" ++ pyTypeName j ++ "\x27 has no len()")

/-- The five-point review prompt template (lines 384-395). -/
def review_prompt (code focus : String) : String :=
  "Please review this code with a focus on " ++ focus ++ ":\n\n```\n" ++ code ++
  "\n```\n\nProvide specific, actionable feedback on:\n1. Potential issues or bugs\n2. Security concerns\n3. Performance optimizations\n4. Best practices\n5. Code clarity and maintainability"

/-- The brainstorm prompt (lines 409-412); the `Context:` block is appended
only when `context` is non-empty (Python truthiness of `if context:`). -/
def brainstorm_prompt (topic context : String) : String :=
  "Let\x27s brainstorm about: " ++ topic ++
  (if context = "" then "" else "\n\nContext: " ++ context) ++
  "\n\nProvide creative ideas, alternatives, and considerations."

/-- The body of the `try` block of `handle_tool_call` (lines 354-416),
computing the `result` string; `.error` models a raised exception (caught on
line 430 and turned into a `-32603` envelope). -/
def toolResult (ctx : Ctx) (outcome : HttpOutcome) (tool_name arguments : Json) :
    Except String String :=
  if jIsStr tool_name "server_info" then
    .ok (if ctx.grokAvailable then
           "Server v" ++ server_version ++ " - Grok connected and ready! Model: " ++
             ctx.defaultModel
         else
           "Server v" ++ server_version ++ " - Grok error: " ++ ctx.grokError)
  else if jIsStr tool_name "ask" then
    if !ctx.grokAvailable then .ok ("Grok not available: " ++ ctx.grokError)
    else do
      let promptJ ← pyDictGet arguments "prompt" (.str "")
      let prompt ← pyExpectStr promptJ
      let prompt := truncate_input prompt MAX_PROMPT_LENGTH
      if pyStrip prompt = "" then .error "prompt cannot be empty"
      else .ok (call_grok prompt none outcome)
  else if jIsStr tool_name "code_review" then
    if !ctx.grokAvailable then .ok ("Grok not available: " ++ ctx.grokError)
    else do
      let codeJ ← pyDictGet arguments "code" (.str "")
      let code ← pyExpectStr codeJ
      let code := truncate_input code MAX_CODE_LENGTH
      if pyStrip code = "" then .error "code cannot be empty"
      else do
        let focusJ ← pyDictGet arguments "focus" (.str "general")
        let focus ← pyExpectStr focusJ
        let focus := sanitize_focus focus
        .ok (call_grok (review_prompt code focus)
              (some "You are an expert code reviewer.") outcome)
  else if jIsStr tool_name "brainstorm" then
    if !ctx.grokAvailable then .ok ("Grok not available: " ++ ctx.grokError)
    else do
      let topicJ ← pyDictGet arguments "topic" (.str "")
      let topic ← pyExpectStr topicJ
      let topic := truncate_input topic MAX_PROMPT_LENGTH
      if pyStrip topic = "" then .error "topic cannot be empty"
      else do
        let contextJ ← pyDictGet arguments "context" (.str "")
        let context ← pyExpectStr contextJ
        let context := truncate_input context MAX_PROMPT_LENGTH
        .ok (call_grok (brainstorm_prompt topic context)
              (some "You are a creative problem solver and brainstorming partner.") outcome)
  else
    .error ("Unknown tool: " ++ pyStr tool_name)

/-- Handler `handle_tool_call` (lines 346-439).  Lines 348-349 (`params.get`) run
before the `try`, so a non-dict `params` raises out of the function
(`.error`); everything inside the `try` is caught and becomes either the
success envelope (line 418) or a `-32603` error envelope (line 432). -/
def handle_tool_call (ctx : Ctx) (outcome : HttpOutcome) (request_id params : Json) :
    Except String Json :=
  match params with
  | .obj fs =>
    let tool_name := (jLookup fs "name").getD .null
    let arguments := (jLookup fs "arguments").getD (.obj [])
    .ok (match toolResult ctx outcome tool_name arguments with
         | .ok result => mkResult request_id (textContent ("GROK RESPONSE:\n\n" ++ result))
         | .error e => mkError request_id (-32603) e)
  | _ => .error ("\x27" ++ pyTypeName params ++ "\x27 object has no attribute \x27get\x27")

/-! ## `initialize` and `tools/list` handlers (`server.py` lines 192-293) -/

/-- Handler `handle_initialize` (lines 192-210). -/
def handle_initialize (request_id : Json) : Json :=
  mkResult request_id (.obj
    [("protocolVersion", .str "2024-11-05"),
     ("capabilities", .obj [("tools", .obj []), ("resources", .obj []), ("prompts", .obj [])]),
     ("serverInfo", .obj [("name", .str "grok-mcp"), ("version", .str server_version)])])

/-- The `ask` tool spec (lines 218-232). -/
def ask_tool : Json :=
  .obj [("name", .str "ask"),
        ("description", .str "Ask Grok a question and get the response directly in Claude\x27s context. Trigger: \x27use grok\x27, \x27ask grok\x27, or \x27grok:\x27 followed by a question."),
        ("inputSchema", .obj
          [("type", .str "object"),
           ("properties", .obj
             [("prompt", .obj
                [("type", .str "string"),
                 ("description", .str "The question or prompt for Grok"),
                 ("maxLength", .num (Int.ofNat MAX_PROMPT_LENGTH))])]),
           ("required", .arr [.str "prompt"])])]

/-- The `code_review` tool spec (lines 233-252). -/
def code_review_tool : Json :=
  .obj [("name", .str "code_review"),
        ("description", .str "Have Grok review code and return feedback directly to Claude. Trigger: \x27grok review\x27, \x27grok code review\x27, or \x27have grok review\x27."),
        ("inputSchema", .obj
          [("type", .str "object"),
           ("properties", .obj
             [("code", .obj
                [("type", .str "string"),
                 ("description", .str "The code to review"),
                 ("maxLength", .num (Int.ofNat MAX_CODE_LENGTH))]),
              ("focus", .obj
                [("type", .str "string"),
                 ("description", .str "Specific focus area (security, performance, etc.)"),
                 ("default", .str "general")])]),
           ("required", .arr [.str "code"])])]

/-- The `brainstorm` tool spec (lines 253-273). -/
def brainstorm_tool : Json :=
  .obj [("name", .str "brainstorm"),
        ("description", .str "Brainstorm solutions with Grok, response visible to Claude. Trigger: \x27grok brainstorm\x27, \x27brainstorm with grok\x27, or \x27grok ideas\x27."),
        ("inputSchema", .obj
          [("type", .str "object"),
           ("properties", .obj
             [("topic", .obj
                [("type", .str "string"),
                 ("description", .str "The topic to brainstorm about"),
                 ("maxLength", .num (Int.ofNat MAX_PROMPT_LENGTH))]),
              ("context", .obj
                [("type", .str "string"),
                 ("description", .str "Additional context"),
                 ("default", .str ""),
                 ("maxLength", .num (Int.ofNat MAX_PROMPT_LENGTH))])]),
           ("required", .arr [.str "topic"])])]

/-- The `server_info` tool spec (lines 276-285), offered only in degraded mode. -/
def server_info_tool : Json :=
  .obj [("name", .str "server_info"),
        ("description", .str "Get server status and error information"),
        ("inputSchema", .obj [("type", .str "object"), ("properties", .obj [])])]

/-- The `tools` array of `handle_tools_list` (lines 214-285), chosen by
`GROK_AVAILABLE`. -/
def tools_for (available : Bool) : List Json :=
  if available then [ask_tool, code_review_tool, brainstorm_tool] else [server_info_tool]

/-- Handler `handle_tools_list` (lines 212-293). -/
def handle_tools_list (ctx : Ctx) (request_id : Json) : Json :=
  mkResult request_id (.obj [("tools", .arr (tools_for ctx.grokAvailable))])

/-- The `name` field of a tool spec. -/
def toolName (t : Json) : Json :=
  match t with
  | .obj fs => (jLookup fs "name").getD .null
  | _ => .null

/-- The names advertised by `tools/list` for a given availability flag. -/
def toolNames (available : Bool) : List Json :=
  (tools_for available).map toolName

/-! ## Dispatcher main loop (`main`, `server.py` lines 441-530) -/

/-- One line read from standard input, after `line.strip()` and the
`json.loads` attempt: whitespace-only, syntactically invalid JSON, or a
decoded value. -/
inductive Line where
  | blank (raw : String)
  | malformed (raw : String)
  | parsed (request : Json)

/-- True for the two notification method names (lines 474-479). -/
def isNotifMethod (m : Json) : Bool :=
  jIsStr m "notifications/initialized" || jIsStr m "notifications/cancelled"

/-- Python `x is None` on a decoded value. -/
def Json.isNull : Json → Bool
  | .null => true
  | _ => false

/-- The best-effort response of the outer `except` clause (lines 518-528):
emitted only when the local variable `request_id` exists (`some`) and is
not `None`. -/
def exnResponses (request_id : Option Json) (msg : String) : List Json :=
  match request_id with
  | none => []
  | some rid =>
    if rid.isNull then [] else [mkError rid (-32603) ("Internal error: " ++ msg)]

/-- One iteration of the `while` loop on one input line.  `lastId` models
the Python local `request_id`, which persists across iterations of the
enclosing function body (`none` = never assigned, i.e. not in `locals()`).
Returns the updated local and the list (empty or singleton) of response
lines written to standard output.

Faithfulness notes on the exception paths:
* a decoded non-dict line raises `AttributeError` at `request.get("method")`
  (line 469) before `request_id` is reassigned, so the outer handler sees
  the previous iteration's value;
* `notifications/cancelled` with a non-dict `params` raises at
  `params.get("requestId")` (line 478) after `request_id` was reassigned;
* `handle_tool_call` raises only for a non-dict `params` (line 348), also
  after `request_id` was reassigned. -/
def stepLine (ctx : Ctx) (outcome : HttpOutcome) (lastId : Option Json) :
    Line → Option Json × List Json
  | .blank _ => (lastId, [])
  | .malformed _ => (lastId, [])
  | .parsed request =>
    match request with
    | .obj fs =>
      let method := (jLookup fs "method").getD .null
      let request_id := (jLookup fs "id").getD .null
      let params := (jLookup fs "params").getD (.obj [])
      if jIsStr method "notifications/initialized" then (some request_id, [])
      else if jIsStr method "notifications/cancelled" then
        match params with
        | .obj _ => (some request_id, [])
        | p => (some request_id,
                exnResponses (some request_id)
                  ("\x27" ++ pyTypeName p ++ "\x27 object has no attribute \x27get\x27"))
      else if jIsStr method "initialize" then
        (some request_id, [ handle_initialize request_id])
      else if jIsStr method "tools/list" then
        (some request_id, [handle_tools_list ctx request_id])
      else if jIsStr method "tools/call" then
        match handle_tool_call ctx outcome request_id params with
        | .ok response => (some request_id, [response])
        | .error e => (some request_id, exnResponses (some request_id) e)
      else if jIsStr method "resources/list" then
        (some request_id, [mkResult request_id (.obj [("resources", .arr [])])])
      else if jIsStr method "prompts/list" then
        (some request_id, [mkResult request_id (.obj [("prompts", .arr [])])])
      else
        (some request_id,
         [mkError request_id (-32601) ("Method not found: " ++ pyStr method)])
    | j =>
      (lastId,
       exnResponses lastId ("\x27" ++ pyTypeName j ++ "\x27 object has no attribute \x27get\x27"))

/-- The whole `while` loop run over a finite input stream (no shutdown
signal arrives; the loop ends at end-of-input).  `gw` is the gateway
oracle, indexed by the iteration counter `i`; each iteration performs at
most one outbound call.  Returns the sequence of response lines written to
standard output, in order. -/
def runLoop (ctx : Ctx) (gw : Nat → HttpOutcome) : Nat → Option Json → List Line → List Json
  | _, _, [] => []
  | i, lastId, l :: ls =>
    let step := stepLine ctx (gw i) lastId l
    step.2 ++ runLoop ctx gw (i + 1) step.1 ls

/-- The `id` field a response line carries. -/
def responseId (response : Json) : Json :=
  match response with
  | .obj fs => (jLookup fs "id").getD .null
  | _ => .null

/-- Whether a decoded request's `params` field, if present, is a mapping
(so the dynamic `params.get` accesses cannot raise). -/
def paramsOk (fs : List (String × Json)) : Bool :=
  match jLookup fs "params" with
  | none => true
  | some (.obj _) => true
  | some _ => false

/-- A stream element that keeps the loop on its normal (no-uncaught-
exception) path: a whitespace/malformed line, or a decoded object whose
method is not a notification method and whose `params` is absent or a
mapping. -/
def goodLine : Line → Bool
  | .blank _ => true
  | .malformed _ => true
  | .parsed (.obj fs) =>
    !isNotifMethod ((jLookup fs "method").getD .null) && paramsOk fs
  | .parsed _ => false

/-- The ids a line's request is owed a response under: empty for
non-requests and notification methods, the (defaulted) `id` otherwise. -/
def lineAnswerIds : Line → List Json
  | .parsed (.obj fs) =>
    if isNotifMethod ((jLookup fs "method").getD .null) then []
    else [(jLookup fs "id").getD .null]
  | _ => []

/-- All owed response ids of a stream, in reading order. -/
def answerableIds : List Line → List Json
  | [] => []
  | l :: ls => lineAnswerIds l ++ answerableIds ls

/-- The seven method strings the dispatcher recognizes (lines 474-501). -/
def recognizedMethods : List String :=
  ["notifications/initialized", "notifications/cancelled", "initialize", "tools/list",
   "tools/call", "resources/list", "prompts/list"]

/-- The failure modes of the gateway call: transport timeout, any request
exception, any other exception, a reply with non-200 status (this covers
every non-2xx status), a 200 reply whose body fails to decode as JSON, or a
200 reply whose decoded body lacks the `choices[0].message.content` shape. -/
def gwFailure : HttpOutcome → Bool
  | .timeout => true
  | .requestExn _ => true
  | .otherExn _ => true
  | .reply status _ body =>
    status != 200 ||
    (match body with
     | .error _ => true
     | .ok result => (choice_content result).isNone)

/-- A descriptive gateway error string: one starting with
`"Error calling Grok"` or `"Unexpected response format"`. -/
def isErrorString (s : String) : Bool :=
  "Error calling Grok".data.isPrefixOf s.data ||
  "Unexpected response format".data.isPrefixOf s.data

/-! ## Helper lemmas -/

/-- Replacing newlines by spaces preserves the character count. -/
theorem replaceNewlinesL_length (l : List Char) : (replaceNewlinesL l).length = l.length := by
  induction l with
  | nil => rfl
  | cons c cs ih => simp [replaceNewlinesL, ih]

/-- No newline survives the replacement. -/
theorem mem_replaceNewlinesL_ne (l : List Char) {c : Char} (h : c ∈ replaceNewlinesL l) :
    c ≠ '\n' := by
  induction l with
  | nil => cases h
  | cons d ds ih =>
    simp only [replaceNewlinesL, List.mem_cons] at h
    rcases h with h | h
    · subst h
      by_cases hd : d = '\n'
      · rw [if_pos hd]; decide
      · rw [if_neg hd]; exact hd
    · exact ih h

/-- Stripping only removes characters. -/
theorem mem_pyStripL (l : List Char) {c : Char} (h : c ∈ pyStripL l) : c ∈ l := by
  unfold pyStripL at h
  rw [List.mem_reverse] at h
  have h1 := (List.dropWhile_sublist pyIsSpace).subset h
  rw [List.mem_reverse] at h1
  exact (List.dropWhile_sublist pyIsSpace).subset h1

/-- Stripping never lengthens a string. -/
theorem pyStripL_length_le (l : List Char) : (pyStripL l).length ≤ l.length := by
  unfold pyStripL
  calc ((l.dropWhile pyIsSpace).reverse.dropWhile pyIsSpace).reverse.length
      = ((l.dropWhile pyIsSpace).reverse.dropWhile pyIsSpace).length := by
        rw [List.length_reverse]
    _ ≤ (l.dropWhile pyIsSpace).reverse.length :=
        (List.dropWhile_sublist pyIsSpace).length_le
    _ = (l.dropWhile pyIsSpace).length := by rw [List.length_reverse]
    _ ≤ l.length := (List.dropWhile_sublist pyIsSpace).length_le

/-- The pre-fallback sanitized focus has no newline character. -/
theorem strippedFocus_no_newline (focus : String) : '\n' ∉ (strippedFocus focus).data := by
  intro h
  exact mem_replaceNewlinesL_ne _ (mem_pyStripL _ h) rfl

/-- The pre-fallback sanitized focus has at most 50 characters. -/
theorem strippedFocus_length_le (focus : String) : (strippedFocus focus).length ≤ 50 := by
  show (pyStripL (replaceNewlinesL (focus.data.take 50))).length ≤ 50
  calc (pyStripL (replaceNewlinesL (focus.data.take 50))).length
      ≤ (replaceNewlinesL (focus.data.take 50)).length := pyStripL_length_le _
    _ = (focus.data.take 50).length := replaceNewlinesL_length _
    _ ≤ 50 := List.length_take_le _ _

/-! ## Claims -/

/-- An input at or below the maximum passes through `truncate_input`
unchanged. -/
theorem truncate_input_le (text : String) (max_length : Nat) (h : text.length ≤ max_length) :
    truncate_input text max_length = text := by
  unfold truncate_input
  rw [if_neg (not_lt.mpr h)]

/-- C3: `truncate_input` is length-bounded (a too-long input is cut to
exactly the maximum and is a prefix of the original, an input at or below
the maximum is returned unchanged) and idempotent. -/
theorem grok_mcp_C3 (text : String) (max_length : Nat) :
    (text.length > max_length →
      (truncate_input text max_length).length = max_length ∧
      (truncate_input text max_length).data <+: text.data) ∧
    (text.length ≤ max_length → truncate_input text max_length = text) ∧
    truncate_input (truncate_input text max_length) max_length = truncate_input text max_length := by
  by_cases h : text.length > max_length
  · have hdata : (truncate_input text max_length).data = text.data.take max_length := by
      unfold truncate_input
      rw [if_pos h]
    have hlen : (truncate_input text max_length).length = max_length := by
      show (truncate_input text max_length).data.length = max_length
      rw [hdata, List.length_take]
      exact Nat.min_eq_left (Nat.le_of_lt h)
    refine ⟨fun _ => ⟨hlen, ?_⟩, fun hle => absurd h (not_lt.mpr hle), ?_⟩
    · rw [hdata]
      exact List.take_prefix _ _
    · exact truncate_input_le _ _ (le_of_eq hlen)
  · have heq : truncate_input text max_length = text := truncate_input_le _ _ (not_lt.mp h)
    exact ⟨fun hgt => absurd hgt h, fun _ => heq, by rw [heq, heq]⟩

/-- C3 witness: a 5-character string truncated at 3 has length 3 and is a
prefix; a 2-character string is unchanged. -/
theorem grok_mcp_C3_witness :
    ((truncate_input "abcde" 3).length = 3 ∧ (truncate_input "abcde" 3).data <+: "abcde".data) ∧
    truncate_input "ab" 3 = "ab" :=
  ⟨(grok_mcp_C3 "abcde" 3).1 (by decide), (grok_mcp_C3 "ab" 3).2.1 (by decide)⟩

/-- C4: a syntactically invalid input line produces zero response lines and
the loop carries on with the remaining lines, with its state unchanged. -/
theorem grok_mcp_C4 (ctx : Ctx) (gw : Nat → HttpOutcome) (i : Nat) (lastId : Option Json)
    (raw : String) (rest : List Line) :
    stepLine ctx (gw i) lastId (Line.malformed raw) = (lastId, []) ∧
    runLoop ctx gw i lastId (Line.malformed raw :: rest) = runLoop ctx gw (i + 1) lastId rest := by
  exact ⟨rfl, by simp [runLoop, stepLine]⟩

/-- C2 (amended): for every string `focus` argument, the sanitized value
contains no newline, has length at most 50, and equals `"general"` exactly
when the pre-fallback sanitized text is empty or is itself `"general"`;
`"sec\nurity!!"` sanitizes to `"sec urity!!"`. -/
theorem grok_mcp_C2 (focus : String) :
    (sanitize_focus focus).data.count '\n' = 0 ∧
    (sanitize_focus focus).length ≤ 50 ∧
    (sanitize_focus focus = "general" ↔
      (strippedFocus focus = "" ∨ strippedFocus focus = "general")) ∧
    sanitize_focus "sec\nurity!!" = "sec urity!!" := by
  refine ⟨?_, ?_, ?_, by decide⟩
  · rw [List.count_eq_zero]
    unfold sanitize_focus
    split
    · decide
    · exact strippedFocus_no_newline focus
  · unfold sanitize_focus
    split
    · decide
    · exact strippedFocus_length_le focus
  · unfold sanitize_focus
    by_cases he : strippedFocus focus = ""
    · rw [if_pos he]
      simp [he]
    · rw [if_neg he]
      simp [he]

/-- C2 counterexample: at input `"general"` the sanitized value equals
`"general"` although the pre-fallback result is non-empty, so "equals
`general` exactly when the result would otherwise be empty" fails as an
equivalence on the value. -/
theorem grok_mcp_C2_cex :
    ¬(sanitize_focus "general" = "general" ↔ strippedFocus "general" = "") := by
  decide

/-- C5: a decoded request whose method is none of the recognized methods is
answered with a `-32601` error envelope carrying the request's id. -/
theorem grok_mcp_C5 (ctx : Ctx) (outcome : HttpOutcome) (lastId : Option Json)
    (fs : List (String × Json))
    (h : ∀ s ∈ recognizedMethods, jIsStr ((jLookup fs "method").getD .null) s = false) :
    stepLine ctx outcome lastId (.parsed (.obj fs)) =
      (some ((jLookup fs "id").getD .null),
       [mkError ((jLookup fs "id").getD .null) (-32601)
          ("Method not found: " ++ pyStr ((jLookup fs "method").getD .null))]) := by
  have h1 := h "notifications/initialized" (by simp [recognizedMethods])
  have h2 := h "notifications/cancelled" (by simp [recognizedMethods])
  have h3 := h "initialize" (by simp [recognizedMethods])
  have h4 := h "tools/list" (by simp [recognizedMethods])
  have h5 := h "tools/call" (by simp [recognizedMethods])
  have h6 := h "resources/list" (by simp [recognizedMethods])
  have h7 := h "prompts/list" (by simp [recognizedMethods])
  simp [stepLine, h1, h2, h3, h4, h5, h6, h7]

/-- C5 witness: `{"method": "frobnicate", "id": 3}` gets a `-32601`
"Method not found" envelope echoing id 3. -/
theorem grok_mcp_C5_witness :
    stepLine ⟨false, "e", "m"⟩ .timeout none
        (.parsed (.obj [("method", .str "frobnicate"), ("id", .num 3)])) =
      (some (.num 3), [mkError (.num 3) (-32601) "Method not found: frobnicate"]) :=
  grok_mcp_C5 _ _ _ _ (by decide)

/-- C6: with the gateway available, a `tools/call` of `ask` whose prompt is
whitespace-only is answered with a `-32603` error envelope echoing id 7
(the "prompt cannot be empty" validation failure), not a success result. -/
theorem grok_mcp_C6 (ctx : Ctx) (gw : Nat → HttpOutcome) (i : Nat) (lastId : Option Json)
    (hA : ctx.grokAvailable = true) :
    runLoop ctx gw i lastId
        [Line.parsed (.obj [("method", .str "tools/call"), ("id", .num 7),
          ("params", .obj [("name", .str "ask"),
                           ("arguments", .obj [("prompt", .str "  ")])])])] =
      [mkError (.num 7) (-32603) "prompt cannot be empty"] := by
  cases ctx with
  | mk av ge dm =>
    subst hA
    rfl

/-- C6 witness at a concrete available context and gateway oracle. -/
theorem grok_mcp_C6_witness :
    runLoop ⟨true, "", "grok-4-1-fast-reasoning"⟩ (fun _ => .timeout) 0 none
        [Line.parsed (.obj [("method", .str "tools/call"), ("id", .num 7),
          ("params", .obj [("name", .str "ask"),
                           ("arguments", .obj [("prompt", .str "  ")])])])] =
      [mkError (.num 7) (-32603) "prompt cannot be empty"] :=
  grok_mcp_C6 _ _ 0 none rfl

/-- C8 (amended): with `XAI_API_KEY` unset — or set to the empty string,
which Python truthiness also treats as missing — `tools/list` lists exactly
the single `server_info` tool; with any non-empty key it lists exactly
`ask`, `code_review`, `brainstorm` and not `server_info`. -/
theorem grok_mcp_C8 (k model : String) (gw : Nat → HttpOutcome) (i : Nat) (lastId : Option Json)
    (hk : k ≠ "") :
    toolNames false = [.str "server_info"] ∧
    toolNames true = [.str "ask", .str "code_review", .str "brainstorm"] ∧
    (ctxOfEnv none model).grokAvailable = false ∧
    (ctxOfEnv (some "") model).grokAvailable = false ∧
    (ctxOfEnv (some k) model).grokAvailable = true ∧
    runLoop (ctxOfEnv none model) gw i lastId
        [Line.parsed (.obj [("method", .str "tools/list"), ("id", .num 1)])] =
      [mkResult (.num 1) (.obj [("tools", .arr [server_info_tool])])] ∧
    runLoop (ctxOfEnv (some k) model) gw i lastId
        [Line.parsed (.obj [("method", .str "tools/list"), ("id", .num 1)])] =
      [mkResult (.num 1)
        (.obj [("tools", .arr [ask_tool, code_review_tool, brainstorm_tool])])] := by
  have hav : (ctxOfEnv (some k) model).grokAvailable = true := by
    simp [ctxOfEnv, init_grok, hk]
  refine ⟨rfl, rfl, rfl, rfl, hav, rfl, ?_⟩
  have hstep : runLoop (ctxOfEnv (some k) model) gw i lastId
      [Line.parsed (.obj [("method", .str "tools/list"), ("id", .num 1)])] =
      [handle_tools_list (ctxOfEnv (some k) model) (.num 1)] := rfl
  rw [hstep]
  unfold handle_tools_list tools_for
  rw [hav, if_pos rfl]

/-- C8 witness at a concrete non-empty key. -/
theorem grok_mcp_C8_witness :
    toolNames false = [.str "server_info"] ∧
    toolNames true = [.str "ask", .str "code_review", .str "brainstorm"] ∧
    (ctxOfEnv none "m").grokAvailable = false ∧
    (ctxOfEnv (some "") "m").grokAvailable = false ∧
    (ctxOfEnv (some "xai-key") "m").grokAvailable = true ∧
    runLoop (ctxOfEnv none "m") (fun _ => .timeout) 0 none
        [Line.parsed (.obj [("method", .str "tools/list"), ("id", .num 1)])] =
      [mkResult (.num 1) (.obj [("tools", .arr [server_info_tool])])] ∧
    runLoop (ctxOfEnv (some "xai-key") "m") (fun _ => .timeout) 0 none
        [Line.parsed (.obj [("method", .str "tools/list"), ("id", .num 1)])] =
      [mkResult (.num 1)
        (.obj [("tools", .arr [ask_tool, code_review_tool, brainstorm_tool])])] :=
  grok_mcp_C8 "xai-key" "m" _ 0 none (by decide)

/-- C8 counterexample: `XAI_API_KEY` present in the environment but equal to
the empty string — a present credential in the claim's terms — still leaves
the gateway unavailable, so `tools/list` lists only `server_info`, not the
three-tool set the claim requires for a present credential. -/
theorem grok_mcp_C8_cex :
    (ctxOfEnv (some "") "m").grokAvailable = false ∧
    runLoop (ctxOfEnv (some "") "m") (fun _ => .timeout) 0 none
        [Line.parsed (.obj [("method", .str "tools/list"), ("id", .num 1)])] =
      [mkResult (.num 1) (.obj [("tools", .arr [server_info_tool])])] :=
  ⟨rfl, rfl⟩

/-- C10: with the gateway never initialized, every `tools/call` of `ask`,
`code_review` or `brainstorm` short-circuits to a success envelope carrying
the unavailability text, for every `arguments` value — argument validation
is never reached. -/
theorem grok_mcp_C10 (ctx : Ctx) (outcome : HttpOutcome) (request_id arguments : Json)
    (tool : String) (hA : ctx.grokAvailable = false)
    (hn : tool = "ask" ∨ tool = "code_review" ∨ tool = "brainstorm") :
    handle_tool_call ctx outcome request_id
        (.obj [("name", .str tool), ("arguments", arguments)]) =
      .ok (mkResult request_id
        (textContent ("GROK RESPONSE:\n\nGrok not available: " ++ ctx.grokError))) := by
  rcases hn with h | h | h <;> subst h <;>
    simp [handle_tool_call, toolResult, hA, jIsStr, jLookup, ← String.append_assoc]

/-- C10 witness: in degraded mode, an `ask` call with no `prompt` argument
at all still returns the unavailability text as a success result. -/
theorem grok_mcp_C10_witness :
    handle_tool_call ⟨false, "XAI_API_KEY environment variable is not set", "m"⟩ .timeout
        (.num 9) (.obj [("name", .str "ask"), ("arguments", .obj [])]) =
      .ok (mkResult (.num 9)
        (textContent
          "GROK RESPONSE:\n\nGrok not available: XAI_API_KEY environment variable is not set")) :=
  grok_mcp_C10 _ _ _ _ "ask" rfl (Or.inl rfl)

/-- A prefix of `q` is a prefix of `q ++ r`. -/
theorem prefix_append_left {α : Type} {p q : List α} (r : List α) (h : p <+: q) :
    p <+: q ++ r :=
  h.trans (List.prefix_append q r)

/-- Derive `isErrorString` from a character-level prefix fact. -/
theorem isErrorString_of_data {s : String}
    (h : "Error calling Grok".data <+: s.data ∨
         "Unexpected response format".data <+: s.data) :
    isErrorString s = true := by
  unfold isErrorString
  rw [Bool.or_eq_true]
  rcases h with h | h
  · exact Or.inl ( List.isPrefixOf_iff_prefix.mpr h)
  · exact Or.inr ( List.isPrefixOf_iff_prefix.mpr h)

/-- Strings formatted by the `except` clauses are descriptive error strings. -/
theorem isErrorString_err (m : String) : isErrorString ("Error calling Grok: " ++ m) = true :=
  isErrorString_of_data (Or.inl (prefix_append_left _ (by decide)))

/-- The "Unexpected response format" branch yields a descriptive error string. -/
theorem isErrorString_unexpected (m : String) :
    isErrorString ("Unexpected response format: " ++ m) = true :=
  isErrorString_of_data (Or.inr (prefix_append_left _ (by decide)))

/-- The non-200-status branch yields a descriptive error string. -/
theorem isErrorString_http (a b : String) :
    isErrorString ("Error calling Grok (HTTP " ++ a ++ "): " ++ b) = true :=
  isErrorString_of_data (Or.inl
    (prefix_append_left _ (prefix_append_left _ (prefix_append_left _ (by decide)))))

/-- When the decoded 200-reply body lacks the expected shape, the string the
`try` block produces — directly or via the catch-all `except` clause — is a
descriptive error string. -/
theorem extract_content_error (result : Json) (h : choice_content result = none) :
    isErrorString (match extract_content result with
                   | .ok s => s
                   | .error m => "Error calling Grok: " ++ m) = true := by
  cases result with
  | null => exact isErrorString_err _
  | bool b => exact isErrorString_err _
  | num n => exact isErrorString_err _
  | str s =>
    simp only [extract_content]
    by_cases hsp : (s.splitOn "choices").length > 1
    · rw [if_pos hsp]
      exact isErrorString_err _
    · rw [if_neg hsp]
      exact isErrorString_unexpected _
  | arr xs =>
    simp only [extract_content]
    by_cases hsp : xs.any (fun x => jIsStr x "choices") = true
    · rw [if_pos hsp]
      exact isErrorString_err _
    · rw [if_neg hsp]
      exact isErrorString_unexpected _
  | obj fs =>
    simp only [extract_content]
    cases hc : jLookup fs "choices" with
    | none => exact isErrorString_unexpected _
    | some choices =>
      cases choices with
      | null => exact isErrorString_err _
      | bool b => exact isErrorString_err _
      | num n => exact isErrorString_err _
      | str s =>
        simp only [pyLen]
        cases hl : s.length with
        | zero => exact isErrorString_unexpected _
        | succ n => exact isErrorString_err _
      | arr xs =>
        cases xs with
        | nil => exact isErrorString_unexpected _
        | cons c cs =>
          cases c with
          | obj cfs =>
            cases hm2 : jLookup cfs "message" with
            | none =>
              simp only [pyLen, List.length_cons, hm2]
              decide
            | some m =>
              cases m with
              | obj mfs =>
                cases hcon : jLookup mfs "content" with
                | none =>
                  simp only [pyLen, List.length_cons, hm2, hcon]
                  decide
                | some v =>
                  exfalso
                  simp only [choice_content, hc, hm2, hcon] at h
                  exact Option.noConfusion h
              | null => simp only [pyLen, List.length_cons, hm2]; exact isErrorString_err _
              | bool b => simp only [pyLen, List.length_cons, hm2]; exact isErrorString_err _
              | num n => simp only [pyLen, List.length_cons, hm2]; exact isErrorString_err _
              | str s => simp only [pyLen, List.length_cons, hm2]; exact isErrorString_err _
              | arr ys => simp only [pyLen, List.length_cons, hm2]; exact isErrorString_err _
          | null => exact isErrorString_err _
          | bool b => exact isErrorString_err _
          | num n => exact isErrorString_err _
          | str s => exact isErrorString_err _
          | arr ys => exact isErrorString_err _
      | obj gs =>
        cases gs with
        | nil => exact isErrorString_unexpected _
        | cons g gs2 => exact isErrorString_err _

/-- C7: on every gateway failure mode, `call_grok` returns a descriptive
error string rather than raising, and the `ask` handler embeds that string
in an ordinary success envelope, never an error envelope. -/
theorem grok_mcp_C7 (outcome : HttpOutcome) (h : gwFailure outcome = true) :
    (∀ prompt system_prompt,
      isErrorString (call_grok prompt system_prompt outcome) = true) ∧
    (∀ (ctx : Ctx) (request_id : Json), ctx.grokAvailable = true →
      handle_tool_call ctx outcome request_id
          (.obj [("name", .str "ask"), ("arguments", .obj [("prompt", .str "hi")])]) =
        .ok (mkResult request_id
          (textContent ("GROK RESPONSE:\n\n" ++ call_grok "hi" none outcome)))) := by
  constructor
  · intro prompt system_prompt
    cases outcome with
    | timeout => exact isErrorString_err "Request timed out"
    | requestExn m => exact isErrorString_err m
    | otherExn m => exact isErrorString_err m
    | reply status text body =>
      by_cases hs : status ≠ 200
      · simp only [call_grok]
        rw [if_pos hs]
        exact isErrorString_http _ _
      · have h200 : status = 200 := not_ne_iff.mp hs
        subst h200
        simp only [gwFailure, bne_self_eq_false, Bool.false_or] at h
        simp only [call_grok]
        rw [if_neg (fun hcc => hcc rfl)]
        cases body with
        | error m => exact isErrorString_err m
        | ok result =>
          exact extract_content_error result (Option.isNone_iff_eq_none.mp h)
  · intro ctx request_id hA
    cases ctx with
    | mk av ge dm =>
      subst hA
      rfl

/-- C7 witness at a concrete failing outcome (HTTP 500). -/
theorem grok_mcp_C7_witness :
    isErrorString (call_grok "hi" none (.reply 500 "Internal Server Error" (.error "x"))) =
      true ∧
    handle_tool_call ⟨true, "", "m"⟩ (.reply 500 "Internal Server Error" (.error "x")) (.num 4)
        (.obj [("name", .str "ask"), ("arguments", .obj [("prompt", .str "hi")])]) =
      .ok (mkResult (.num 4)
        (textContent ("GROK RESPONSE:\n\n" ++
          call_grok "hi" none (.reply 500 "Internal Server Error" (.error "x"))))) :=
  ⟨(grok_mcp_C7 _ (by decide)).1 "hi" none,
   (grok_mcp_C7 _ (by decide)).2 ⟨true, "", "m"⟩ (.num 4) rfl⟩

/-- Helper: `Json.isNull` is false exactly on non-null values. -/
theorem isNull_eq_false {j : Json} (h : j ≠ .null) : j.isNull = false := by
  cases j
  case null => exact absurd rfl h
  all_goals rfl

/-- C9: when producing the response for a decoded request with a non-null
id raises an uncaught exception (here: `handle_tool_call` raising before
its `try`, because `params` is not a mapping), the loop still writes a
best-effort `-32603` error response carrying that id, and then continues
with the remaining input lines. -/
theorem grok_mcp_C9 (ctx : Ctx) (gw : Nat → HttpOutcome) (i : Nat) (lastId : Option Json)
    (fs : List (String × Json)) (rest : List Line) (msg : String)
    (hm : (jLookup fs "method").getD .null = .str "tools/call")
    (hid : (jLookup fs "id").getD .null ≠ .null)
    (hex : handle_tool_call ctx (gw i) ((jLookup fs "id").getD .null)
             ((jLookup fs "params").getD (.obj [])) = .error msg) :
    runLoop ctx gw i lastId (.parsed (.obj fs) :: rest) =
      mkError ((jLookup fs "id").getD .null) (-32603) ("Internal error: " ++ msg) ::
        runLoop ctx gw (i + 1) (some ((jLookup fs "id").getD .null)) rest := by
  simp [runLoop, stepLine, hm, hex, jIsStr, exnResponses, isNull_eq_false hid]

/-- C9 witness: `{"method": "tools/call", "id": 1, "params": 5}` makes the
handler raise `AttributeError`; the loop answers id 1 with a `-32603`
"Internal error" envelope. -/
theorem grok_mcp_C9_witness :
    runLoop ⟨false, "e", "m"⟩ (fun _ => .timeout) 0 none
        [Line.parsed (.obj [("method", .str "tools/call"), ("id", .num 1),
          ("params", .num 5)])] =
      [mkError (.num 1) (-32603)
        "Internal error: \x27int\x27 object has no attribute \x27get\x27"] :=
  grok_mcp_C9 _ _ 0 none _ [] _ rfl (fun hcon => nomatch hcon) rfl

/-- Success envelopes echo the request id. -/
theorem responseId_mkResult (rid result : Json) : responseId (mkResult rid result) = rid := by
  simp [responseId, mkResult, jLookup]

/-- Error envelopes echo the request id. -/
theorem responseId_mkError (rid : Json) (code : Int) (msg : String) :
    responseId (mkError rid code msg) = rid := by
  simp [responseId, mkError, jLookup]

/-- With a mapping `params`, `handle_tool_call` never raises and its
response echoes the request id. -/
theorem responseId_handle_tool_call (ctx : Ctx) (outcome : HttpOutcome) (rid : Json)
    (gs : List (String × Json)) :
    ∃ r, handle_tool_call ctx outcome rid (.obj gs) = .ok r ∧ responseId r = rid := by
  refine ⟨_, rfl, ?_⟩
  cases toolResult ctx outcome ((jLookup gs "name").getD .null)
      ((jLookup gs "arguments").getD (.obj [])) with
  | ok s => exact responseId_mkResult _ _
  | error e => exact responseId_mkError _ _ _

/-- An accepted `params` field defaults/decodes to a mapping. -/
theorem paramsOk_obj {fs : List (String × Json)} (h : paramsOk fs = true) :
    ∃ gs, (jLookup fs "params").getD (.obj []) = .obj gs := by
  unfold paramsOk at h
  cases hp : jLookup fs "params" with
  | none => exact ⟨[], rfl⟩
  | some p =>
    rw [hp] at h
    cases p with
    | obj gs => exact ⟨gs, rfl⟩
    | null => exact Bool.noConfusion h
    | bool b => exact Bool.noConfusion h
    | num n => exact Bool.noConfusion h
    | str s => exact Bool.noConfusion h
    | arr xs => exact Bool.noConfusion h

/-- One loop iteration on a good request line: the `request_id` local is
(re)assigned, and exactly the owed responses — one envelope per
non-notification request, echoing its id — are written. -/
theorem stepLine_good (ctx : Ctx) (outcome : HttpOutcome) (lastId : Option Json)
    (fs : List (String × Json)) (hg : goodLine (.parsed (.obj fs)) = true) :
    ∃ outs,
      stepLine ctx outcome lastId (.parsed (.obj fs)) =
        (some ((jLookup fs "id").getD .null), outs) ∧
      outs.map responseId = lineAnswerIds (.parsed (.obj fs)) := by
  simp only [goodLine, Bool.and_eq_true, Bool.not_eq_true'] at hg
  obtain ⟨hnotif, hparams⟩ := hg
  have hn1 : jIsStr ((jLookup fs "method").getD .null) "notifications/initialized" = false := by
    cases hx : jIsStr ((jLookup fs "method").getD .null) "notifications/initialized"
    · rfl
    · rw [isNotifMethod, hx] at hnotif; cases hnotif
  have hn2 : jIsStr ((jLookup fs "method").getD .null) "notifications/cancelled" = false := by
    cases hx : jIsStr ((jLookup fs "method").getD .null) "notifications/cancelled"
    · rfl
    · rw [isNotifMethod, hx, Bool.or_true] at hnotif; cases hnotif
  have hline : lineAnswerIds (.parsed (.obj fs)) = [(jLookup fs "id").getD .null] := by
    simp [lineAnswerIds, hnotif]
  simp only [stepLine, hn1, hn2, Bool.false_eq_true, if_false]
  by_cases h3 : jIsStr ((jLookup fs "method").getD .null) "initialize" = true
  · refine ⟨[ handle_initialize ((jLookup fs "id").getD .null)], by simp [h3], ?_⟩
    simp [hline, handle_initialize, responseId_mkResult]
  · simp only [h3, if_false]
    by_cases h4 : jIsStr ((jLookup fs "method").getD .null) "tools/list" = true
    · refine ⟨[handle_tools_list ctx ((jLookup fs "id").getD .null)], by simp [h4], ?_⟩
      simp [hline, handle_tools_list, responseId_mkResult]
    · simp only [h4, if_false]
      by_cases h5 : jIsStr ((jLookup fs "method").getD .null) "tools/call" = true
      · obtain ⟨gs, hgs⟩ := paramsOk_obj hparams
        obtain ⟨r, hr, hrid⟩ :=
          responseId_handle_tool_call ctx outcome ((jLookup fs "id").getD .null) gs
        refine ⟨[r], ?_, ?_⟩
        · rw [hgs]
          simp [h5, hr]
        · simp [hline, hrid]
      · simp only [h5, if_false]
        by_cases h6 : jIsStr ((jLookup fs "method").getD .null) "resources/list" = true
        · refine ⟨[mkResult ((jLookup fs "id").getD .null) (.obj [("resources", .arr [])])],
            by simp [h6], ?_⟩
          simp [hline, responseId_mkResult]
        · simp only [h6, if_false]
          by_cases h7 : jIsStr ((jLookup fs "method").getD .null) "prompts/list" = true
          · refine ⟨[mkResult ((jLookup fs "id").getD .null) (.obj [("prompts", .arr [])])],
              by simp [h7], ?_⟩
            simp [hline, responseId_mkResult]
          · simp only [h7, if_false]
            refine ⟨_, rfl, ?_⟩
            simp [hline, responseId_mkError]

/-- C1 (amended): over any input stream whose JSON-decodable lines are all
objects with a non-notification method and a mapping (or absent) `params`,
the response ids written to standard output are exactly the request ids, in
reading order — exactly one response per request, echoing its id, strict
FIFO, no drops, no duplicates.  (As stated, the claim fails for requests
whose method is a notification method: see the counterexample.) -/
theorem grok_mcp_C1 (ctx : Ctx) (gw : Nat → HttpOutcome) (i : Nat) (lastId : Option Json)
    (lines : List Line) (h : ∀ l ∈ lines, goodLine l = true) :
    (runLoop ctx gw i lastId lines).map responseId = answerableIds lines := by
  induction lines generalizing i lastId with
  | nil => rfl
  | cons l ls ih =>
    have hl := h l (List.mem_cons_self l ls)
    have hls : ∀ x ∈ ls, goodLine x = true := fun x hx => h x (List.mem_cons_of_mem l hx)
    cases l with
    | blank raw =>
      simpa [runLoop, stepLine, answerableIds, lineAnswerIds] using ih (i + 1) lastId hls
    | malformed raw =>
      simpa [runLoop, stepLine, answerableIds, lineAnswerIds] using ih (i + 1) lastId hls
    | parsed j =>
      cases j with
      | obj fs =>
        obtain ⟨outs, hstep, hmap⟩ := stepLine_good ctx (gw i) lastId fs hl
        simp only [runLoop, hstep, answerableIds, List.map_append]
        rw [hmap, ih (i + 1) (some ((jLookup fs "id").getD .null)) hls]
      | null => cases hl
      | bool b => cases hl
      | num n => cases hl
      | str s => cases hl
      | arr xs => cases hl

/-- C1 counterexample: the decoded request
`{"method": "notifications/initialized", "id": 5}` is an object with the
`id` key present, yet the loop writes zero response lines for it, so "every
well-formed request with a present id yields exactly one response" fails as
stated. -/
theorem grok_mcp_C1_cex :
    jLookup [("method", Json.str "notifications/initialized"), ("id", Json.num 5)] "id" =
      some (Json.num 5) ∧
    runLoop ⟨false, "e", "m"⟩ (fun _ => .timeout) 0 none
        [Line.parsed (.obj
          [("method", .str "notifications/initialized"), ("id", .num 5)])] = [] :=
  ⟨rfl, rfl⟩

/-- C1 witness: a stream of two good requests around a malformed line gets
exactly their two response ids, in order. -/
theorem grok_mcp_C1_witness :
    (∀ l ∈ [Line.parsed (.obj [("method", Json.str "tools/list"), ("id", Json.num 1)]),
            Line.malformed "oops",
            Line.parsed (.obj [("method", Json.str "frobnicate"), ("id", Json.num 2)])],
        goodLine l = true) ∧
    ((runLoop ⟨true, "", "m"⟩ (fun _ => .timeout) 0 none
        [Line.parsed (.obj [("method", Json.str "tools/list"), ("id", Json.num 1)]),
         Line.malformed "oops",
         Line.parsed (.obj [("method", Json.str "frobnicate"), ("id", Json.num 2)])]).map
          responseId =
      answerableIds
        [Line.parsed (.obj [("method", Json.str "tools/list"), ("id", Json.num 1)]),
         Line.malformed "oops",
         Line.parsed (.obj [("method", Json.str "frobnicate"), ("id", Json.num 2)])]) :=
  ⟨by decide, grok_mcp_C1 _ _ 0 none _ (by decide)⟩
